import Mathlib

/-!
Shallow embedding of the SIDEWAYSV2 drift-game simulation core.

Sources:
* `src/components/GameCanvas.tsx` — per-tick vehicle physics (`updatePhysics`,
  live branch), the replay recorder/player, and the ghost-run replacement
  logic in `handleClear`.
* `src/utils/ClippingSystem.ts` — the `ClippingZoneDetector` pixel sampler and
  the `DriftScoring` state machine.
* `src/types.ts` / `src/constants.ts` — data shapes and default parameters.

JavaScript numbers are modelled as `ℚ`; the transcendental functions
(`Math.sin`, `Math.cos`) are passed in as abstract functions `ℚ → ℚ`, since no
claim depends on their values.  The double-precision constant `180 / Math.PI`
is modelled by a fixed rational stand-in `RAD_TO_DEG`.
-/

namespace Sideways

/-- `CarState` from `src/types.ts` (all numeric fields are JS numbers). -/
structure CarState where
  xPos : ℚ
  yPos : ℚ
  xSpeed : ℚ
  ySpeed : ℚ
  speed : ℚ
  driftAngle : ℚ
  angle : ℚ
  angularVelocity : ℚ
  isTurning : Bool
  isReversing : Bool
  width : ℚ
  height : ℚ
deriving DecidableEq, Repr

/-- The fields of `GameParams` (`src/types.ts`) consumed by `updatePhysics`. -/
structure GameParams where
  maxSpeed : ℚ
  maxReverseSpeed : ℚ
  accelerationFactor : ℚ
  decelerationFactor : ℚ
  driftFactor : ℚ
  turnFactor : ℚ
  oversteer : ℚ
  eBrakeDecay : ℚ
deriving DecidableEq, Repr

/-- `InputState` from `src/types.ts`. -/
structure InputState where
  up : Bool
  down : Bool
  left : Bool
  right : Bool
  brake : Bool
  eBrake : Bool
deriving DecidableEq, Repr

/-- The physics-relevant slice of `DEFAULT_PARAMS` (`src/types.ts`). -/
def DEFAULT_PARAMS : GameParams :=
  { maxSpeed := 5
    maxReverseSpeed := -4
    accelerationFactor := 1/10
    decelerationFactor := 1/10
    driftFactor := 145/100
    turnFactor := 2/10
    oversteer := 12/10
    eBrakeDecay := 995/1000 }

/-- The initial car state (`carRef` initialiser, `GameCanvas.tsx` lines 51-56). -/
def car0 : CarState :=
  { xPos := 0, yPos := 0, xSpeed := 0, ySpeed := 0, speed := 0
    driftAngle := 0, angle := 0, angularVelocity := 0
    isTurning := false, isReversing := false
    width := 25, height := 50 }

/-- One live physics tick: the `--- LIVE LOGIC ---` block of `updatePhysics`
(`GameCanvas.tsx` lines 312-364), with the in-place mutations of `car`
sequentialised.  `sind x` and `cosd x` stand for `Math.sin((π/180)·x)` and
`Math.cos((π/180)·x)`; `mapW`/`mapH` are the world bounds used for wrapping. -/
def updatePhysics (sind cosd : ℚ → ℚ) (p : GameParams) (input : InputState)
    (mapW mapH : ℚ) (car : CarState) : CarState :=
  -- 1. Acceleration / Braking
  let throttle := input.up && !input.eBrake
  let speed1 := if throttle then
      (if car.speed < p.maxSpeed then car.speed + p.accelerationFactor else car.speed)
    else car.speed
  let speed2 := if input.down then
      (if speed1 > p.maxReverseSpeed then speed1 - p.decelerationFactor else speed1)
    else speed1
  -- 2. Turning
  let isMoving := |speed2| > 1/10
  let isTurning1 := if input.left && isMoving then true else car.isTurning
  let av1 := if input.left && isMoving then
      car.angularVelocity -
        p.turnFactor * (if input.up then 1 else (speed2 / p.maxSpeed) * 2) *
          (if input.up then 1 else (if speed2 > 0 then 1 else -1))
    else car.angularVelocity
  let isTurning2 := if input.right && isMoving then true else isTurning1
  let av2 := if input.right && isMoving then
      av1 +
        p.turnFactor * (if input.up then 1 else (speed2 / p.maxSpeed) * 2) *
          (if input.up then 1 else (if speed2 > 0 then 1 else -1))
    else av1
  -- 3. Drift Physics
  let isReversing := speed2 < 0
  let av3 := av2 * (94/100)
  let drift1 := if !isReversing then
      car.driftAngle + p.driftFactor * av3 * p.oversteer
    else car.driftAngle
  let drift2 := drift1 * (94/100)
  let angle1 := car.angle + av3
  -- Friction
  let drag := if input.eBrake then p.eBrakeDecay else 98/100
  let lateralFriction : ℚ := if input.eBrake then 15/100 else 1
  let speed3 := speed2 * drag -
      (if isReversing then -1 else 1) * ((|drift2| * speed2) / 1000) * lateralFriction
  -- Velocity Vectors
  let turnDrag : ℚ := if isTurning2 && !input.eBrake then 94/100 else 1
  let xs := sind (angle1 - drift2) * speed3 * turnDrag
  let ys := cosd (angle1 - drift2) * speed3 * turnDrag
  let x1 := car.xPos + xs
  let y1 := car.yPos - ys
  -- 5. Bounds wrapping
  let x2 := if x1 > mapW then 0 else if x1 < 0 then mapW else x1
  let y2 := if y1 > mapH then 0 else if y1 < 0 then mapH else y1
  { xPos := x2, yPos := y2, xSpeed := xs, ySpeed := ys, speed := speed3
    driftAngle := drift2, angle := angle1, angularVelocity := av3
    isTurning := isTurning2, isReversing := isReversing
    width := car.width, height := car.height }

/-- The input vector holding only the accelerator (`{up: true}`). -/
def upOnly : InputState :=
  { up := true, down := false, left := false, right := false
    brake := false, eBrake := false }

/-- Car state after `n` live ticks from rest holding `{up: true}`, with the
default parameters (C1's scenario). -/
def carAfterTicks (sind cosd : ℚ → ℚ) (mapW mapH : ℚ) : ℕ → CarState
  | 0 => car0
  | n + 1 => updatePhysics sind cosd DEFAULT_PARAMS upOnly mapW mapH
      (carAfterTicks sind cosd mapW mapH n)

/-!  The `ClippingZoneDetector` and `DriftScoring` classes from
`src/utils/ClippingSystem.ts`.  -/

/-- An RGB pixel (0-255 channels, modelled as integers). -/
structure Pixel where
  r : ℤ
  g : ℤ
  b : ℤ
deriving DecidableEq, Repr

/-- A loaded track image with its cached `ImageData`: the pixel buffer is
modelled as a total function from integer coordinates to pixels (the flat
RGBA array indexing of `getPixel` resolves to exactly one pixel per
in-bounds coordinate pair). -/
structure TrackImage where
  width : ℕ
  height : ℕ
  data : ℕ → ℕ → Pixel

/-- `ClippingZoneConfig` from `src/utils/ClippingSystem.ts`. -/
structure ClippingZoneConfig where
  clippingColor : Pixel
  colorTolerance : ℤ
  pointMultiplier : ℚ
  detectionRadius : ℚ
deriving DecidableEq, Repr

/-- The constructor defaults of `ClippingZoneDetector` (white target,
tolerance 50, multiplier 2.5, radius 20). -/
def defaultClippingConfig : ClippingZoneConfig :=
  { clippingColor := { r := 255, g := 255, b := 255 }
    colorTolerance := 50
    pointMultiplier := 25/10
    detectionRadius := 20 }

namespace ClippingZoneDetector

/-- `getPixel` (`ClippingSystem.ts` lines 70-86): floor the coordinates,
return `none` outside image bounds, else the cached pixel. -/
def getPixel (img : TrackImage) (x y : ℚ) : Option Pixel :=
  let px := ⌊x⌋
  let py := ⌊y⌋
  if px < 0 ∨ py < 0 ∨ px ≥ (img.width : ℤ) ∨ py ≥ (img.height : ℤ) then
    none
  else
    some (img.data px.toNat py.toNat)

/-- `isClippingZoneColor` (`ClippingSystem.ts` lines 177-185). -/
def isClippingZoneColor (cfg : ClippingZoneConfig) (p : Pixel) : Bool :=
  |p.r - cfg.clippingColor.r| ≤ cfg.colorTolerance ∧
  |p.g - cfg.clippingColor.g| ≤ cfg.colorTolerance ∧
  |p.b - cfg.clippingColor.b| ≤ cfg.colorTolerance

/-- `getCarCheckPoints` (`ClippingSystem.ts` lines 134-175): the 7 offsets of
the car silhouette, rotated by `cosA`/`sinA` (the values of
`Math.cos(angleRad)`/`Math.sin(angleRad)`), translated to the centre. -/
def getCarCheckPoints (img : TrackImage) (centerX centerY carWidth carHeight : ℚ)
    (cosA sinA : ℚ) (trackWidth trackHeight : ℚ) : List (ℚ × ℚ) :=
  let imgScaleX := (img.width : ℚ) / trackWidth
  let imgScaleY := (img.height : ℚ) / trackHeight
  let imgW := carWidth * imgScaleX
  let imgH := carHeight * imgScaleY
  let offsets : List (ℚ × ℚ) :=
    [(-imgW * (5/10), imgH * (5/10)),
     (0, imgH * (5/10)),
     (imgW * (5/10), imgH * (5/10)),
     (-imgW * (5/10), -imgH * (5/10)),
     (imgW * (5/10), -imgH * (5/10)),
     (imgW * (5/10), 0),
     (-imgW * (5/10), 0)]
  offsets.map (fun o =>
    (centerX + (o.1 * cosA - o.2 * sinA), centerY + (o.1 * sinA + o.2 * cosA)))

/-- Rational stand-in for the double-precision value of `Math.PI`. -/
def MATH_PI : ℚ := 314159265358979/100000000000000

/-- The 7 check points sampled by `checkClippingZone` for a given car state:
the car's world position mapped into image pixel space, and the silhouette
offsets rotated by `angle * (Math.PI / 180)` (`ClippingSystem.ts` lines
96-111). -/
def carCheckPoints (jcos jsin : ℚ → ℚ) (img : TrackImage) (car : CarState)
    (trackWidth trackHeight : ℚ) : List (ℚ × ℚ) :=
  let imageX := (car.xPos / trackWidth) * (img.width : ℚ)
  let imageY := (car.yPos / trackHeight) * (img.height : ℚ)
  let angleRad := car.angle * MATH_PI / 180
  getCarCheckPoints img imageX imageY car.width car.height
    (jcos angleRad) (jsin angleRad) trackWidth trackHeight

/-- The body of the sampling loop of `checkClippingZone` (`ClippingSystem.ts`
lines 116-124): accumulate `(clippingHits, totalChecks)` over one check
point, skipping it entirely when `getPixel` returns `null`. -/
def countStep (cfg : ClippingZoneConfig) (img : TrackImage) (acc : ℕ × ℕ)
    (point : ℚ × ℚ) : ℕ × ℕ :=
  match getPixel img point.1 point.2 with
  | some px =>
    (if isClippingZoneColor cfg px then acc.1 + 1 else acc.1, acc.2 + 1)
  | none => acc

/-- `checkClippingZone` (`ClippingSystem.ts` lines 91-132).  `jcos`/`jsin`
stand for `Math.cos`/`Math.sin`; the track image is `none` when no image was
loaded (or loading failed), in which case the guard at the top returns a
neutral 1.0.  The loop accumulates `(clippingHits, totalChecks)` over the 7
check points and returns the configured multiplier when
`totalChecks > 0 && clippingHits / totalChecks >= 0.3`. -/
def checkClippingZone (jcos jsin : ℚ → ℚ) (img? : Option TrackImage)
    (cfg : ClippingZoneConfig) (car : CarState) (trackWidth trackHeight : ℚ) : ℚ :=
  match img? with
  | none => 1
  | some img =>
    let checkPoints := carCheckPoints jcos jsin img car trackWidth trackHeight
    let counts := checkPoints.foldl (countStep cfg img) (0, 0)
    if 0 < counts.2 ∧ (counts.1 : ℚ) / (counts.2 : ℚ) ≥ 3/10 then
      cfg.pointMultiplier
    else
      1

/-- The number of the car's check points whose sample lies inside the image
bounds (`totalChecks` at the end of the sampling loop). -/
def inBoundsCount (img : TrackImage) (pts : List (ℚ × ℚ)) : ℕ :=
  pts.countP (fun pt => (getPixel img pt.1 pt.2).isSome)

/-- The number of in-bounds check points whose pixel matches the configured
clipping colour (`clippingHits` at the end of the sampling loop). -/
def clippingHitCount (cfg : ClippingZoneConfig) (img : TrackImage)
    (pts : List (ℚ × ℚ)) : ℕ :=
  pts.countP (fun pt =>
    ((getPixel img pt.1 pt.2).map (isClippingZoneColor cfg)).getD false)

end ClippingZoneDetector

/-- `DriftState` from `src/utils/ClippingSystem.ts` (the `combo` counter is a
JS number that only ever holds integers; modelled as `ℤ`). -/
structure DriftState where
  isDrifting : Bool
  currentScore : ℚ
  totalScore : ℚ
  multiplier : ℚ
  combo : ℤ
  duration : ℚ
  isInClippingZone : Bool
deriving DecidableEq, Repr

/-- `DriftScoringConfig` from `src/utils/ClippingSystem.ts`. -/
structure DriftScoringConfig where
  minDriftAngle : ℚ
  minSpeed : ℚ
  basePointsPerSecond : ℚ
  comboDecayTime : ℚ
  comboBonus : ℚ
deriving DecidableEq, Repr

/-- The constructor defaults of `DriftScoring` — the only configuration the
repository ever instantiates (`createDriftSystem` calls `new DriftScoring()`). -/
def defaultScoringConfig : DriftScoringConfig :=
  { minDriftAngle := 15
    minSpeed := 3
    basePointsPerSecond := 500
    comboDecayTime := 2000
    comboBonus := 2/10 }

/-- The full private state of a `DriftScoring` instance: the public
`DriftState` plus the private fields `comboTimer` and `lastDriftDir`. -/
structure ScoringState where
  state : DriftState
  comboTimer : ℚ
  lastDriftDir : ℤ
deriving DecidableEq, Repr

/-- The field initialisers of `DriftScoring` (`ClippingSystem.ts` lines
211-223). -/
def initialScoringState : ScoringState :=
  { state :=
      { isDrifting := false, currentScore := 0, totalScore := 0
        multiplier := 1, combo := 0, duration := 0, isInClippingZone := false }
    comboTimer := 0
    lastDriftDir := 0 }

/-- Rational stand-in for the double-precision value of `180 / Math.PI`
(≈ 57.29577951308232), the radians→degrees factor applied by
`DriftScoring.update` to the incoming `driftAngle`. -/
def RAD_TO_DEG : ℚ := 5729577951308232/100000000000000

/-- `Math.sign`: 1 for positive, -1 for negative, 0 for zero. -/
def jsign (x : ℚ) : ℤ :=
  if x > 0 then 1 else if x < 0 then -1 else 0

namespace DriftScoring

/-- `endDrift` (`ClippingSystem.ts` lines 315-325): bank
`Math.floor(currentScore)` into `totalScore` when `bank` is true, then reset
the session fields. -/
def endDrift (bank : Bool) (s : ScoringState) : ScoringState :=
  { state :=
      { s.state with
        totalScore :=
          if bank then s.state.totalScore + (⌊s.state.currentScore⌋ : ℚ)
          else s.state.totalScore
        combo := 0
        currentScore := 0
        multiplier := 1
        isDrifting := false }
    comboTimer := s.comboTimer
    lastDriftDir := 0 }

/-- `startDrift` (`ClippingSystem.ts` lines 307-313). -/
def startDrift (cfg : DriftScoringConfig) (s : ScoringState) : ScoringState :=
  { state :=
      { s.state with
        isDrifting := true, currentScore := 0, duration := 0, combo := 1 }
    comboTimer := cfg.comboDecayTime
    lastDriftDir := s.lastDriftDir }

/-- `DriftScoring.update` (`ClippingSystem.ts` lines 238-305), with the
in-place mutations sequentialised.  Inputs: the car's `speed` and
`driftAngle`, the detector's `clippingMultiplier` and the tick's
`deltaTime` in seconds. -/
def update (cfg : DriftScoringConfig) (speed driftAngle clippingMultiplier deltaTime : ℚ)
    (s : ScoringState) : ScoringState :=
  let s := { s with state := { s.state with isInClippingZone := clippingMultiplier > 1 } }
  -- Check speed requirement. If too slow, immediately bank/fail.
  if |speed| < cfg.minSpeed then
    if s.state.isDrifting = true ∨ s.state.currentScore > 0 then endDrift false s else s
  else
    let angleDeg := |driftAngle * RAD_TO_DEG|
    let currentDir := jsign driftAngle
    if angleDeg ≥ cfg.minDriftAngle then
      let s1 :=
        if s.state.isDrifting = false then
          { startDrift cfg s with lastDriftDir := currentDir }
        else s
      -- chain logic: direction switch increments combo and awards 500·combo
      let s2 :=
        if s1.lastDriftDir ≠ 0 ∧ currentDir ≠ 0 ∧ currentDir ≠ s1.lastDriftDir then
          let combo' := s1.state.combo + 1
          { s1 with
            state :=
              { s1.state with
                combo := combo'
                currentScore := s1.state.currentScore + 500 * (combo' : ℚ) }
            lastDriftDir := currentDir }
        else s1
      let s3 := { s2 with state := { s2.state with multiplier := clippingMultiplier } }
      let comboMultiplier := 1 + ((s3.state.combo : ℚ) - 1) * cfg.comboBonus
      let angleBonus := max 1 (angleDeg / 30)
      let pointsThisFrame :=
        cfg.basePointsPerSecond * s3.state.multiplier * comboMultiplier *
          angleBonus * deltaTime
      { s3 with
        state :=
          { s3.state with
            currentScore := s3.state.currentScore + pointsThisFrame
            duration := s3.state.duration + deltaTime }
        comboTimer := cfg.comboDecayTime }
    else
      -- not drifting hard enough: decay the combo timer while drifting
      if s.state.isDrifting = true then
        let t := s.comboTimer - deltaTime * 1000
        if t ≤ 0 then endDrift true { s with comboTimer := t }
        else { s with comboTimer := t }
      else s

/-- `resetTotal` (`ClippingSystem.ts` lines 331-337). -/
def resetTotal (s : ScoringState) : ScoringState :=
  { state :=
      { s.state with
        totalScore := 0, currentScore := 0, combo := 0, isDrifting := false }
    comboTimer := s.comboTimer
    lastDriftDir := 0 }

/-- One `update` input record: the arguments of one scoring tick. -/
structure UpdateInput where
  speed : ℚ
  driftAngle : ℚ
  clippingMultiplier : ℚ
  deltaTime : ℚ
deriving DecidableEq, Repr

/-- A sequence of `update` calls, applied in order. -/
def runUpdates (cfg : DriftScoringConfig) (inputs : List UpdateInput)
    (s : ScoringState) : ScoringState :=
  inputs.foldl
    (fun st i => update cfg i.speed i.driftAngle i.clippingMultiplier i.deltaTime st) s

end DriftScoring

/-!  Replay recorder/player and ghost-run logic from
`src/components/GameCanvas.tsx`.  -/

/-- `REPLAY_MAX_FRAMES` (`GameCanvas.tsx` line 19): 30 seconds at 60 fps. -/
def REPLAY_MAX_FRAMES : ℕ := 1800

/-- Recording one live tick into the replay buffer (`GameCanvas.tsx` lines
384-387): push a value copy of the car state, then `shift()` the oldest entry
off the front if the buffer exceeds `REPLAY_MAX_FRAMES`. -/
def recordReplayFrame (buf : List CarState) (s : CarState) : List CarState :=
  let b := buf ++ [s]
  if b.length > REPLAY_MAX_FRAMES then b.tail else b

/-- Recording a whole sequence of live ticks, oldest first. -/
def recordReplayFrames (buf : List CarState) (states : List CarState) : List CarState :=
  states.foldl recordReplayFrame buf

/-- `replayStateRef` (`GameCanvas.tsx` lines 38-43): fractional playhead,
playing flag, speed multiplier and the UI-update throttle counter. -/
structure ReplayState where
  index : ℚ
  isPlaying : Bool
  speed : ℚ
  framesSinceLastUIUpdate : ℕ
deriving DecidableEq, Repr

/-- The `--- REPLAY LOGIC ---` branch of `updatePhysics` (`GameCanvas.tsx`
lines 273-309): on an empty buffer, return immediately; while playing advance
`index` by `speed` and wrap to 0 on reaching the buffer length; display the
buffer entry at `Math.floor(index)` when it exists (a JS array read at a
negative or out-of-range index yields `undefined` and leaves the car
unchanged, modelled as `none`).  Returns the new replay state and the
displayed frame. -/
def replayTick (buf : List CarState) (st : ReplayState) : ReplayState × Option CarState :=
  if buf.length = 0 then (st, none)
  else
    let index1 :=
      if st.isPlaying then
        let i := st.index + st.speed
        if i ≥ (buf.length : ℚ) then 0 else i
      else st.index
    let frameIndex := ⌊index1⌋
    let displayed :=
      if 0 ≤ frameIndex ∧ frameIndex < (buf.length : ℤ) then buf[frameIndex.toNat]?
      else none
    let f1 := st.framesSinceLastUIUpdate + 1
    let f2 := if f1 > 5 then 0 else f1
    ({ index := index1, isPlaying := st.isPlaying, speed := st.speed
       framesSinceLastUIUpdate := f2 }, displayed)

/-- `GhostFrame` from `src/types.ts`. -/
structure GhostFrame where
  x : ℚ
  y : ℚ
  angle : ℚ
  driftAngle : ℚ
deriving DecidableEq, Repr

/-- `GhostRun` from `src/types.ts`. -/
structure GhostRun where
  frames : List GhostFrame
  totalScore : ℚ
deriving DecidableEq, Repr

/-- `const currentScore = currentState ? currentState.totalScore : 0`
(`GameCanvas.tsx` line 230): the run's banked score captured from the
scoring machine at reset time, 0 when no scoring state exists. -/
def bankedScoreAtReset : Option DriftState → ℚ
  | some st => st.totalScore
  | none => 0

/-- The `--- GHOST LOGIC ---` block of `handleClear` (`GameCanvas.tsx` lines
227-238).  `lastState?` is `driftSystemRef.current._lastState` — the scoring
state captured at reset time (`none` when no drift system or no recorded
state exists).  Returns the new stored best ghost run. -/
def handleClearGhost (ghost : Option GhostRun) (currentRun : List GhostFrame)
    (lastState? : Option DriftState) : Option GhostRun :=
  if currentRun.length > 0 then
    let currentScore := bankedScoreAtReset lastState?
    match ghost with
    | none => some { frames := currentRun, totalScore := currentScore }
    | some g =>
      if currentScore > g.totalScore then
        some { frames := currentRun, totalScore := currentScore }
      else ghost
  else ghost

/-- A ghost pose sample at the origin, used as a concrete recorded frame. -/
def ghostFrame0 : GhostFrame := { x := 0, y := 0, angle := 0, driftAngle := 0 }

/-- A scoring snapshot whose banked total is `t` (all other fields idle). -/
def driftStateWithTotal (t : ℚ) : DriftState :=
  { isDrifting := false, currentScore := 0, totalScore := t
    multiplier := 1, combo := 0, duration := 0, isInClippingZone := false }

/-!  ## Invariants  -/

/-- The C3 invariant: the session score is 0 whenever no drift is active. -/
def driftInv (s : ScoringState) : Prop :=
  s.state.isDrifting = false → s.state.currentScore = 0

/-- The C4 auxiliary invariant: the session score and the combo counter are
never negative. -/
def scoreInv (s : ScoringState) : Prop :=
  0 ≤ s.state.currentScore ∧ 0 ≤ s.state.combo

/-!  ## Supporting lemmas  -/

/-- Holding only the accelerator from a straight, non-rotating state: the
angular fields stay at 0 and the tick multiplies the accelerated speed by the
0.98 drag factor. -/
theorem updatePhysics_upOnly_speed (sind cosd : ℚ → ℚ) (mapW mapH : ℚ) (car : CarState)
    (hav : car.angularVelocity = 0) (hd : car.driftAngle = 0) (hs : car.speed < 5) :
    (updatePhysics sind cosd DEFAULT_PARAMS upOnly mapW mapH car).angularVelocity = 0 ∧
    (updatePhysics sind cosd DEFAULT_PARAMS upOnly mapW mapH car).driftAngle = 0 ∧
    (updatePhysics sind cosd DEFAULT_PARAMS upOnly mapW mapH car).speed
      = (car.speed + 1/10) * (49/50) := by
  simp [updatePhysics, upOnly, DEFAULT_PARAMS, hav, hd, hs]
  ring_nf
  tauto

/-- In C1's scenario the speed stays strictly below the 4.9 fixed point of
the accelerate-then-drag recurrence `s ↦ (s + 0.1) · 0.98`. -/
theorem carAfterTicks_speed_lt (sind cosd : ℚ → ℚ) (mapW mapH : ℚ) : ∀ n : ℕ,
    (carAfterTicks sind cosd mapW mapH n).angularVelocity = 0 ∧
    (carAfterTicks sind cosd mapW mapH n).driftAngle = 0 ∧
    (carAfterTicks sind cosd mapW mapH n).speed < 49/10 := by
  intro n
  induction n with
  | zero => refine ⟨rfl, rfl, ?_⟩; norm_num [carAfterTicks, car0]
  | succ n ih =>
    obtain ⟨hav, hd, hs⟩ := ih
    have hs5 : (carAfterTicks sind cosd mapW mapH n).speed < 5 := lt_trans hs (by norm_num)
    have h := updatePhysics_upOnly_speed sind cosd mapW mapH _ hav hd hs5
    refine ⟨h.1, h.2.1, ?_⟩
    have h2 : (carAfterTicks sind cosd mapW mapH (n+1)).speed
        = ((carAfterTicks sind cosd mapW mapH n).speed + 1/10) * (49/50) := h.2.2
    rw [h2]
    linarith

/-- One scoring tick with non-negative `deltaTime` and multiplier ≥ 1
preserves `scoreInv` and never decreases `totalScore`; when it changes,
`totalScore` grows by exactly `⌊currentScore⌋`. -/
theorem update_totalScore_step (speed driftAngle mult dt : ℚ) (s : ScoringState)
    (hdt : 0 ≤ dt) (hm : 1 ≤ mult) (hinv : scoreInv s) :
    scoreInv (DriftScoring.update defaultScoringConfig speed driftAngle mult dt s) ∧
    s.state.totalScore ≤
      (DriftScoring.update defaultScoringConfig speed driftAngle mult dt s).state.totalScore ∧
    ((DriftScoring.update defaultScoringConfig speed driftAngle mult dt s).state.totalScore
        = s.state.totalScore ∨
     (DriftScoring.update defaultScoringConfig speed driftAngle mult dt s).state.totalScore
        = s.state.totalScore + (⌊s.state.currentScore⌋ : ℚ)) := by
  obtain ⟨hcs, hcb⟩ := hinv
  have hm0 : (0:ℚ) ≤ mult := le_trans (by norm_num) hm
  have hcbq : (0:ℚ) ≤ (s.state.combo : ℚ) := by exact_mod_cast hcb
  have h2 : (0:ℚ) ≤ 1 ⊔ (|driftAngle * RAD_TO_DEG| / 30) :=
    le_trans zero_le_one (le_max_left _ _)
  by_cases hslow : |speed| < (3:ℚ)
  · by_cases hact : s.state.isDrifting = true ∨ s.state.currentScore > 0
    · simp [DriftScoring.update, DriftScoring.endDrift, hslow, hact, scoreInv,
        defaultScoringConfig]
    · simp [DriftScoring.update, hslow, hact, scoreInv, defaultScoringConfig, hcs, hcb]
  · by_cases hangle : (15:ℚ) ≤ |driftAngle * RAD_TO_DEG|
    · by_cases hd : s.state.isDrifting = false
      · simp [DriftScoring.update, hslow, hangle, hd, DriftScoring.startDrift,
          scoreInv, defaultScoringConfig]
        have hp := mul_nonneg (mul_nonneg (mul_nonneg
          (by norm_num : (0:ℚ) ≤ 500) hm0) h2) hdt
        linarith
      · by_cases hchain : s.lastDriftDir ≠ 0 ∧ jsign driftAngle ≠ 0 ∧
            jsign driftAngle ≠ s.lastDriftDir
        · simp [DriftScoring.update, hslow, hangle, hd, hchain, scoreInv,
            defaultScoringConfig]
          have h1 : (0:ℚ) ≤ 1 + (s.state.combo : ℚ) * (2/10) := by linarith
          have hp := mul_nonneg (mul_nonneg (mul_nonneg (mul_nonneg
            (by norm_num : (0:ℚ) ≤ 500) hm0) h1) h2) hdt
          constructor
          · linarith
          · omega
        · simp [DriftScoring.update, hslow, hangle, hd, hchain, scoreInv,
            defaultScoringConfig]
          have h1 : (0:ℚ) ≤ 1 + ((s.state.combo : ℚ) - 1) * (2/10) := by linarith
          have hp := mul_nonneg (mul_nonneg (mul_nonneg (mul_nonneg
            (by norm_num : (0:ℚ) ≤ 500) hm0) h1) h2) hdt
          constructor
          · linarith
          · exact hcb
    · by_cases hd : s.state.isDrifting = true
      · by_cases ht : s.comboTimer ≤ dt * 1000
        · simp [DriftScoring.update, DriftScoring.endDrift, hslow, hangle, hd, ht,
            sub_nonpos, scoreInv, defaultScoringConfig]
          have h0 : (0:ℤ) ≤ ⌊s.state.currentScore⌋ := Int.floor_nonneg.mpr hcs
          exact_mod_cast h0
        · simp [DriftScoring.update, hslow, hangle, hd, ht, sub_nonpos, scoreInv,
            defaultScoringConfig, hcs, hcb]
      · simp [DriftScoring.update, hslow, hangle, hd, scoreInv,
          defaultScoringConfig, hcs, hcb]

/-- `scoreInv` and `totalScore` monotonicity extend to every sequence of
valid scoring ticks. -/
theorem runUpdates_mono (inputs : List DriftScoring.UpdateInput) : ∀ s : ScoringState,
    (∀ i ∈ inputs, 0 ≤ i.deltaTime ∧ 1 ≤ i.clippingMultiplier) → scoreInv s →
    scoreInv (DriftScoring.runUpdates defaultScoringConfig inputs s) ∧
    s.state.totalScore ≤
      (DriftScoring.runUpdates defaultScoringConfig inputs s).state.totalScore := by
  induction inputs with
  | nil => intro s _ h; exact ⟨h, le_rfl⟩
  | cons i rest ih =>
    intro s hv hinv
    have hi := hv i (List.mem_cons_self _ _)
    have hstep := update_totalScore_step i.speed i.driftAngle i.clippingMultiplier
      i.deltaTime s hi.1 hi.2 hinv
    have hrest := ih (DriftScoring.update defaultScoringConfig i.speed i.driftAngle
        i.clippingMultiplier i.deltaTime s)
      (fun j hj => hv j (List.mem_cons_of_mem _ hj)) hstep.1
    refine ⟨?_, ?_⟩
    · simpa [DriftScoring.runUpdates] using hrest.1
    · calc s.state.totalScore ≤ _ := hstep.2.1
        _ ≤ _ := hrest.2

/-- One recorded tick keeps the replay buffer within its capacity. -/
theorem recordReplayFrame_length_le (buf : List CarState) (s : CarState)
    (h : buf.length ≤ REPLAY_MAX_FRAMES) :
    (recordReplayFrame buf s).length ≤ REPLAY_MAX_FRAMES := by
  simp only [recordReplayFrame]
  split_ifs with hlen
  · simp_all [REPLAY_MAX_FRAMES]
  · simp_all [REPLAY_MAX_FRAMES]

/-- Any sequence of recorded ticks keeps the buffer within its capacity. -/
theorem recordReplayFrames_length_le (states : List CarState) : ∀ buf : List CarState,
    buf.length ≤ REPLAY_MAX_FRAMES →
    (recordReplayFrames buf states).length ≤ REPLAY_MAX_FRAMES := by
  induction states with
  | nil => intro buf h; simpa [recordReplayFrames] using h
  | cons a rest ih =>
    intro buf h
    have h1 := recordReplayFrame_length_le buf a h
    simpa [recordReplayFrames] using ih (recordReplayFrame buf a) h1

/-- While the buffer stays under capacity, recording just appends. -/
theorem recordReplayFrames_eq_of_le (states : List CarState) : ∀ buf : List CarState,
    buf.length + states.length ≤ REPLAY_MAX_FRAMES →
    recordReplayFrames buf states = buf ++ states := by
  induction states with
  | nil => intro buf _; simp [recordReplayFrames]
  | cons a rest ih =>
    intro buf h
    have h1 : (buf ++ [a]).length ≤ REPLAY_MAX_FRAMES := by
      simp at h ⊢
      omega
    have hstep : recordReplayFrame buf a = buf ++ [a] := by
      unfold recordReplayFrame
      rw [if_neg]
      omega
    calc recordReplayFrames buf (a :: rest)
        = recordReplayFrames (recordReplayFrame buf a) rest := rfl
      _ = recordReplayFrames (buf ++ [a]) rest := by rw [hstep]
      _ = (buf ++ [a]) ++ rest := by
          apply ih
          simp at h ⊢
          omega
      _ = buf ++ (a :: rest) := by simp

/-- Recording exactly 1801 ticks from empty: the 1801st push evicts the
first tick's snapshot, leaving the last 1800. -/
theorem recordReplayFrames_1801 (states : List CarState) (h : states.length = 1801) :
    (recordReplayFrames [] states).length = 1800 ∧
    (recordReplayFrames [] states).head? = states[1]? := by
  have hne : states ≠ [] := by intro he; rw [he] at h; simp at h
  have hsplit : states = states.dropLast ++ [states.getLast hne] :=
    (List.dropLast_append_getLast hne).symm
  have hdl : states.dropLast.length = 1800 := by
    rw [List.length_dropLast, h]
  have h1 : recordReplayFrames [] states.dropLast = states.dropLast := by
    have := recordReplayFrames_eq_of_le states.dropLast []
    simp [REPLAY_MAX_FRAMES, hdl] at this
    simpa using this
  have h2 : recordReplayFrames [] states
      = recordReplayFrame (states.dropLast) (states.getLast hne) := by
    conv_lhs => rw [hsplit]
    rw [recordReplayFrames, List.foldl_append]
    show recordReplayFrame (recordReplayFrames [] states.dropLast) (states.getLast hne) = _
    rw [h1]
  have h3 : recordReplayFrame (states.dropLast) (states.getLast hne)
      = (states.dropLast ++ [states.getLast hne]).tail := by
    unfold recordReplayFrame
    rw [if_pos]
    simp [REPLAY_MAX_FRAMES, hdl]
  rw [h2, h3, ← hsplit]
  constructor
  · rw [List.length_tail, h]
  · cases states with
    | nil => simp at h
    | cons a rest =>
      cases rest <;> simp

namespace ClippingZoneDetector

/-- The sampling loop of `checkClippingZone` counts exactly the colour
matches and the in-bounds samples among the check points. -/
theorem foldl_countStep (cfg : ClippingZoneConfig) (img : TrackImage)
    (pts : List (ℚ × ℚ)) : ∀ acc : ℕ × ℕ,
    pts.foldl (countStep cfg img) acc =
      (acc.1 + clippingHitCount cfg img pts, acc.2 + inBoundsCount img pts) := by
  induction pts with
  | nil => intro acc; simp [clippingHitCount, inBoundsCount]
  | cons p rest ih =>
    intro acc
    rw [List.foldl_cons, ih]
    unfold countStep clippingHitCount inBoundsCount
    cases hpx : getPixel img p.1 p.2 with
    | none => simp [List.countP_cons, hpx, clippingHitCount, inBoundsCount]
    | some px =>
      by_cases hc : isClippingZoneColor cfg px <;>
        simp [List.countP_cons, hpx, hc, clippingHitCount, inBoundsCount] <;> omega

end ClippingZoneDetector

/-!  ## Claim theorems  -/

/-- Claim C1 (counterexample): in the claimed scenario — from rest, holding
`{up: true}` with `accelerationFactor = 0.1`, `maxSpeed = 5` — the speed at
tick 50 is NOT 5.0: the drag factor 0.98 applied after acceleration keeps the
speed strictly below the 4.9 fixed point forever. -/
theorem C1_counterexample_tick50 :
    (carAfterTicks (fun _ => 0) (fun _ => 0) 1000 1000 50).speed ≠ 5 := by
  have h := (carAfterTicks_speed_lt (fun _ => 0) (fun _ => 0) 1000 1000 50).2.2
  intro he
  rw [he] at h
  norm_num at h

/-- Claim C1 (amended): holding `{up: true}` from rest with the default
parameters (`accelerationFactor = 0.1`, `maxSpeed = 5`), the speed is
strictly below 5.0 at every tick; the cap is never reached because the 0.98
drag multiplier runs after the acceleration step each tick. -/
theorem C1_speed_below_cap (sind cosd : ℚ → ℚ) (mapW mapH : ℚ) (n : ℕ) :
    (carAfterTicks sind cosd mapW mapH n).speed < 5 :=
  lt_trans (carAfterTicks_speed_lt sind cosd mapW mapH n).2.2 (by norm_num)

/-- Claim C2 (code bug evidence): `DriftScoring.update` multiplies the
incoming `driftAngle` by `180 / π` before comparing with `minDriftAngle`.
At the failing input — `speed = 5`, `driftAngle = 1` (a 1-degree drift angle,
as `GameCanvas` produces degrees), default config — a drift starts even
though `|driftAngle| = 1` is far below the 15-degree threshold, contradicting
the claim that the compared angle equals `|driftAngle|` with no unit
conversion. -/
theorem C2_degree_input_starts_drift :
    |(1:ℚ)| < defaultScoringConfig.minDriftAngle ∧
    defaultScoringConfig.minSpeed ≤ |(5:ℚ)| ∧
    (DriftScoring.update defaultScoringConfig 5 1 1 (1/60)
        initialScoringState).state.isDrifting = true := by
  refine ⟨by norm_num [defaultScoringConfig], by norm_num [defaultScoringConfig], ?_⟩
  have habs : (15:ℚ) ≤ |(716197243913529:ℚ) / 12500000000000| := by
    rw [abs_of_nonneg (by norm_num : (0:ℚ) ≤ (716197243913529:ℚ) / 12500000000000)]
    norm_num
  norm_num [DriftScoring.update, defaultScoringConfig, initialScoringState,
    RAD_TO_DEG, jsign, DriftScoring.startDrift, habs]

/-- Claim C3: `currentScore = 0` whenever `isDrifting = false` — the
invariant holds in the initial state, is preserved by every `update` call,
and is (re-)established unconditionally by `endDrift` and `resetTotal`. -/
theorem C3_currentScore_zero_when_idle :
    driftInv initialScoringState ∧
    (∀ (cfg : DriftScoringConfig) (speed driftAngle clippingMultiplier deltaTime : ℚ)
        (s : ScoringState), driftInv s →
      driftInv (DriftScoring.update cfg speed driftAngle clippingMultiplier deltaTime s)) ∧
    (∀ (b : Bool) (s : ScoringState), driftInv (DriftScoring.endDrift b s)) ∧
    (∀ s : ScoringState, driftInv (DriftScoring.resetTotal s)) := by
  refine ⟨fun _ => rfl, ?_, fun b s _ => rfl, fun s _ => rfl⟩
  intro cfg speed driftAngle clippingMultiplier deltaTime s hs
  unfold driftInv at *
  by_cases hslow : |speed| < cfg.minSpeed
  · by_cases hact : s.state.isDrifting = true ∨ s.state.currentScore > 0
    · simp [DriftScoring.update, DriftScoring.endDrift, hslow, hact]
    · simpa [DriftScoring.update, hslow, hact] using hs
  · by_cases hangle : |driftAngle * RAD_TO_DEG| ≥ cfg.minDriftAngle
    · by_cases hd : s.state.isDrifting = false
      · simp [DriftScoring.update, hslow, hangle, hd, DriftScoring.startDrift]
      · by_cases hchain : s.lastDriftDir ≠ 0 ∧ jsign driftAngle ≠ 0 ∧
            jsign driftAngle ≠ s.lastDriftDir
        · simp [DriftScoring.update, hslow, hangle, hd, hchain]
        · simp [DriftScoring.update, hslow, hangle, hd, hchain]
    · by_cases hd : s.state.isDrifting = true
      · by_cases ht : s.comboTimer - deltaTime * 1000 ≤ 0
        · simp [DriftScoring.update, DriftScoring.endDrift, hslow, hangle, hd, ht]
        · simp [DriftScoring.update, hslow, hangle, hd, ht]
      · simpa [DriftScoring.update, hslow, hangle, hd] using hs

/-- Claim C3 witness: the invariant is preserved through one concrete
`update` call from the initial state. -/
theorem C3_witness :
    driftInv (DriftScoring.update defaultScoringConfig 5 1 1 (1/60)
      initialScoringState) :=
  C3_currentScore_zero_when_idle.2.1 defaultScoringConfig 5 1 1 (1/60)
    initialScoringState (fun _ => rfl)

/-- Claim C4: with the configuration the repository instantiates (the
constructor defaults), across every sequence of `update` calls with
non-negative `deltaTime` and clipping multiplier ≥ 1, `totalScore` is
non-decreasing (hence a positive total never returns to 0 through updates);
a single `update` changes `totalScore` only by adding `⌊currentScore⌋` (the
banking path); and `resetTotal` sets it to 0. -/
theorem C4_totalScore_monotone :
    scoreInv initialScoringState ∧
    (∀ (inputs : List DriftScoring.UpdateInput) (s : ScoringState),
      (∀ i ∈ inputs, 0 ≤ i.deltaTime ∧ 1 ≤ i.clippingMultiplier) → scoreInv s →
      scoreInv (DriftScoring.runUpdates defaultScoringConfig inputs s) ∧
      s.state.totalScore ≤
        (DriftScoring.runUpdates defaultScoringConfig inputs s).state.totalScore) ∧
    (∀ (speed driftAngle mult dt : ℚ) (s : ScoringState),
      0 ≤ dt → 1 ≤ mult → scoreInv s →
      ((DriftScoring.update defaultScoringConfig speed driftAngle mult dt s).state.totalScore
          = s.state.totalScore ∨
       (DriftScoring.update defaultScoringConfig speed driftAngle mult dt s).state.totalScore
          = s.state.totalScore + (⌊s.state.currentScore⌋ : ℚ))) ∧
    (∀ s : ScoringState, (DriftScoring.resetTotal s).state.totalScore = 0) := by
  refine ⟨⟨le_refl 0, le_refl 0⟩, ?_, ?_, fun s => rfl⟩
  · intro inputs s hv hinv
    exact runUpdates_mono inputs s hv hinv
  · intro speed driftAngle mult dt s hdt hm hinv
    exact (update_totalScore_step speed driftAngle mult dt s hdt hm hinv).2.2

/-- Claim C4 witness: one concrete valid input sequence from the initial
state leaves `totalScore` non-decreasing. -/
theorem C4_witness :
    (∀ i ∈ [({ speed := 5, driftAngle := 1, clippingMultiplier := 1,
               deltaTime := 1/60 } : DriftScoring.UpdateInput)],
      0 ≤ i.deltaTime ∧ 1 ≤ i.clippingMultiplier) ∧
    scoreInv initialScoringState ∧
    (scoreInv (DriftScoring.runUpdates defaultScoringConfig
        [{ speed := 5, driftAngle := 1, clippingMultiplier := 1, deltaTime := 1/60 }]
        initialScoringState) ∧
      initialScoringState.state.totalScore ≤
        (DriftScoring.runUpdates defaultScoringConfig
          [{ speed := 5, driftAngle := 1, clippingMultiplier := 1, deltaTime := 1/60 }]
          initialScoringState).state.totalScore) := by
  refine ⟨?_, ⟨le_refl 0, le_refl 0⟩, ?_⟩
  · intro i hi
    simp at hi
    subst hi
    norm_num
  · exact C4_totalScore_monotone.2.1
      [{ speed := 5, driftAngle := 1, clippingMultiplier := 1, deltaTime := 1/60 }]
      initialScoringState
      (by intro i hi; simp at hi; subst hi; norm_num)
      ⟨le_refl 0, le_refl 0⟩

/-- Claim C5: an `update` call with `|speed| < minSpeed` while a drift is
active or unbanked score is held ends the drift without banking — the state
returns to idle (`isDrifting = false`, `currentScore = 0`, `combo = 0`) and
`totalScore` is unchanged. -/
theorem C5_slow_speed_ends_without_banking (cfg : DriftScoringConfig)
    (speed driftAngle clippingMultiplier deltaTime : ℚ) (s : ScoringState)
    (hslow : |speed| < cfg.minSpeed)
    (hact : s.state.isDrifting = true ∨ s.state.currentScore > 0) :
    (DriftScoring.update cfg speed driftAngle clippingMultiplier deltaTime
        s).state.isDrifting = false ∧
    (DriftScoring.update cfg speed driftAngle clippingMultiplier deltaTime
        s).state.currentScore = 0 ∧
    (DriftScoring.update cfg speed driftAngle clippingMultiplier deltaTime
        s).state.combo = 0 ∧
    (DriftScoring.update cfg speed driftAngle clippingMultiplier deltaTime
        s).state.totalScore = s.state.totalScore := by
  rcases hact with h | h <;>
    simp [DriftScoring.update, DriftScoring.endDrift, hslow, h]

/-- Claim C5 witness: a concrete slow tick from a drifting state with
unbanked score ends the drift and leaves `totalScore` untouched. -/
theorem C5_witness :
    |(0:ℚ)| < defaultScoringConfig.minSpeed ∧
    ({ state := { isDrifting := true, currentScore := 700, totalScore := 42
                  multiplier := 1, combo := 1, duration := 1
                  isInClippingZone := false }
       comboTimer := 2000, lastDriftDir := 1 } : ScoringState).state.isDrifting = true ∧
    ((DriftScoring.update defaultScoringConfig 0 20 1 (1/60)
        { state := { isDrifting := true, currentScore := 700, totalScore := 42
                     multiplier := 1, combo := 1, duration := 1
                     isInClippingZone := false }
          comboTimer := 2000, lastDriftDir := 1 }).state.isDrifting = false ∧
     (DriftScoring.update defaultScoringConfig 0 20 1 (1/60)
        { state := { isDrifting := true, currentScore := 700, totalScore := 42
                     multiplier := 1, combo := 1, duration := 1
                     isInClippingZone := false }
          comboTimer := 2000, lastDriftDir := 1 }).state.currentScore = 0 ∧
     (DriftScoring.update defaultScoringConfig 0 20 1 (1/60)
        { state := { isDrifting := true, currentScore := 700, totalScore := 42
                     multiplier := 1, combo := 1, duration := 1
                     isInClippingZone := false }
          comboTimer := 2000, lastDriftDir := 1 }).state.combo = 0 ∧
     (DriftScoring.update defaultScoringConfig 0 20 1 (1/60)
        { state := { isDrifting := true, currentScore := 700, totalScore := 42
                     multiplier := 1, combo := 1, duration := 1
                     isInClippingZone := false }
          comboTimer := 2000, lastDriftDir := 1 }).state.totalScore
       = ({ state := { isDrifting := true, currentScore := 700, totalScore := 42
                       multiplier := 1, combo := 1, duration := 1
                       isInClippingZone := false }
            comboTimer := 2000, lastDriftDir := 1 } : ScoringState).state.totalScore) :=
  ⟨by norm_num [defaultScoringConfig], rfl,
    C5_slow_speed_ends_without_banking defaultScoringConfig 0 20 1 (1/60) _
      (by norm_num [defaultScoringConfig]) (Or.inl rfl)⟩

/-- Claim C6: the replay buffer never exceeds 1800 entries under recording
(single step and whole sequences), and recording exactly 1801 ticks from an
empty buffer leaves 1800 entries whose first element is the state recorded
on the second tick. -/
theorem C6_replay_buffer_bound :
    (∀ (buf : List CarState) (s : CarState), buf.length ≤ REPLAY_MAX_FRAMES →
      (recordReplayFrame buf s).length ≤ REPLAY_MAX_FRAMES) ∧
    (∀ (buf states : List CarState), buf.length ≤ REPLAY_MAX_FRAMES →
      (recordReplayFrames buf states).length ≤ REPLAY_MAX_FRAMES) ∧
    (∀ states : List CarState, states.length = 1801 →
      (recordReplayFrames [] states).length = 1800 ∧
      (recordReplayFrames [] states).head? = states[1]?) :=
  ⟨recordReplayFrame_length_le,
   fun buf states h => recordReplayFrames_length_le states buf h,
   recordReplayFrames_1801⟩

/-- Claim C6 witness: recording a concrete list of 1801 car states
from empty leaves 1800 frames starting with the second tick's state. -/
theorem C6_witness :
    (List.replicate 1801 car0).length = 1801 ∧
    ((recordReplayFrames [] (List.replicate 1801 car0)).length = 1800 ∧
     (recordReplayFrames [] (List.replicate 1801 car0)).head? =
       (List.replicate 1801 car0)[1]?) :=
  ⟨by rw [List.length_replicate],
   C6_replay_buffer_bound.2.2 (List.replicate 1801 car0)
     (by rw [List.length_replicate])⟩

/-- Claim C7: with a non-empty buffer and a non-negative playhead and speed,
a playing replay tick advances `index` by `speed`, wrapping to 0 when the
buffer length is reached or exceeded, and displays the buffer entry at
`⌊index⌋`; a paused tick leaves `index` unchanged and still displays the
entry at `⌊index⌋`. -/
theorem C7_replay_playhead (buf : List CarState) (st : ReplayState)
    (hne : buf ≠ []) (hidx : 0 ≤ st.index) (hspd : 0 ≤ st.speed) :
    (st.isPlaying = true →
      (replayTick buf st).1.index =
        (if st.index + st.speed ≥ (buf.length : ℚ) then 0 else st.index + st.speed) ∧
      (replayTick buf st).2 = buf[(⌊(replayTick buf st).1.index⌋).toNat]?) ∧
    (st.isPlaying = false →
      (replayTick buf st).1.index = st.index ∧
      (replayTick buf st).2 = buf[(⌊st.index⌋).toNat]?) := by
  have hlen : ¬ buf.length = 0 := by simpa using hne
  constructor
  · intro hp
    have hidx1 : (0:ℚ) ≤
        (if st.index + st.speed ≥ (buf.length : ℚ) then 0 else st.index + st.speed) := by
      split_ifs
      · exact le_refl 0
      · linarith
    constructor
    · simp [replayTick, hlen, hp]
    · simp [replayTick, hlen, hp]
      intro h
      have h2 := h (Int.floor_nonneg.mpr hidx1)
      omega
  · intro hp
    constructor
    · simp [replayTick, hlen, hp]
    · simp [replayTick, hlen, hp]
      intro h
      have h2 := h (Int.floor_nonneg.mpr hidx)
      omega

set_option maxRecDepth 2000 in
/-- Claim C7 witness: one playing tick on a concrete two-frame buffer. -/
theorem C7_witness :
    ([car0, { car0 with speed := 1 }] ≠ ([] : List CarState)) ∧
    (0:ℚ) ≤ ({ index := 0, isPlaying := true, speed := 1
               framesSinceLastUIUpdate := 0 } : ReplayState).index ∧
    (0:ℚ) ≤ ({ index := 0, isPlaying := true, speed := 1
               framesSinceLastUIUpdate := 0 } : ReplayState).speed ∧
    ((({ index := 0, isPlaying := true, speed := 1
         framesSinceLastUIUpdate := 0 } : ReplayState).isPlaying = true →
      (replayTick [car0, { car0 with speed := 1 }]
          { index := 0, isPlaying := true, speed := 1
            framesSinceLastUIUpdate := 0 }).1.index =
        (if (0:ℚ) + 1 ≥ (([car0, { car0 with speed := 1 }] : List CarState).length : ℚ)
         then 0 else (0:ℚ) + 1) ∧
      (replayTick [car0, { car0 with speed := 1 }]
          { index := 0, isPlaying := true, speed := 1
            framesSinceLastUIUpdate := 0 }).2 =
        [car0, { car0 with speed := 1 }][(⌊(replayTick [car0, { car0 with speed := 1 }]
          { index := 0, isPlaying := true, speed := 1
            framesSinceLastUIUpdate := 0 }).1.index⌋).toNat]?) ∧
     (({ index := 0, isPlaying := true, speed := 1
         framesSinceLastUIUpdate := 0 } : ReplayState).isPlaying = false →
      (replayTick [car0, { car0 with speed := 1 }]
          { index := 0, isPlaying := true, speed := 1
            framesSinceLastUIUpdate := 0 }).1.index = 0 ∧
      (replayTick [car0, { car0 with speed := 1 }]
          { index := 0, isPlaying := true, speed := 1
            framesSinceLastUIUpdate := 0 }).2 =
        [car0, { car0 with speed := 1 }][(⌊(0:ℚ)⌋).toNat]?)) :=
  ⟨by simp, le_refl 0, by norm_num,
   C7_replay_playhead [car0, { car0 with speed := 1 }]
     { index := 0, isPlaying := true, speed := 1, framesSinceLastUIUpdate := 0 }
     (by simp) (le_refl 0) (by norm_num)⟩

/-- Claim C8: on a reset with a non-empty current run, the stored ghost is
replaced exactly when none is stored or the run's banked score is strictly
greater; banking 100 then 150 stores 150, and banking 150 then 100 keeps
150. -/
theorem C8_ghost_replacement :
    (∀ (ghost : Option GhostRun) (run : List GhostFrame)
        (lastState? : Option DriftState), 0 < run.length →
      handleClearGhost ghost run lastState? =
        (if ghost = none ∨
            (∃ g, ghost = some g ∧ bankedScoreAtReset lastState? > g.totalScore)
         then some { frames := run, totalScore := bankedScoreAtReset lastState? }
         else ghost)) ∧
    Option.map GhostRun.totalScore
      (handleClearGhost
        (handleClearGhost none [ghostFrame0] (some (driftStateWithTotal 100)))
        [ghostFrame0] (some (driftStateWithTotal 150))) = some 150 ∧
    Option.map GhostRun.totalScore
      (handleClearGhost
        (handleClearGhost none [ghostFrame0] (some (driftStateWithTotal 150)))
        [ghostFrame0] (some (driftStateWithTotal 100))) = some 150 := by
  refine ⟨?_, ?_, ?_⟩
  · intro ghost run lastState? hne
    cases ghost with
    | none => simp [handleClearGhost, hne]
    | some g =>
      by_cases hgt : bankedScoreAtReset lastState? > g.totalScore
      · simp [handleClearGhost, hne, hgt]
      · simp [handleClearGhost, hne, hgt]
  · norm_num [handleClearGhost, bankedScoreAtReset, driftStateWithTotal]
  · norm_num [handleClearGhost, bankedScoreAtReset, driftStateWithTotal]

/-- Claim C8 witness: with no stored ghost and a non-empty run, the run is
stored. -/
theorem C8_witness :
    0 < ([ghostFrame0] : List GhostFrame).length ∧
    handleClearGhost none [ghostFrame0] (some (driftStateWithTotal 100)) =
      (if (none : Option GhostRun) = none ∨
          (∃ g, (none : Option GhostRun) = some g ∧
            bankedScoreAtReset (some (driftStateWithTotal 100)) > g.totalScore)
       then some { frames := [ghostFrame0]
                   totalScore := bankedScoreAtReset (some (driftStateWithTotal 100)) }
       else none) :=
  ⟨by norm_num,
   C8_ghost_replacement.1 none [ghostFrame0] (some (driftStateWithTotal 100))
     (by norm_num)⟩

/-- Claim C9: `checkClippingZone` returns 1.0 with no track image; otherwise
it samples exactly 7 silhouette points and returns the configured bonus
multiplier precisely when there is at least one in-bounds sample and the
colour matches are at least 30% of the in-bounds samples (out-of-bounds
points count as neither), returning 1.0 in every other case; the defaults
are multiplier 2.5, target white, tolerance 50. -/
theorem C9_checkClippingZone (jcos jsin : ℚ → ℚ)
    (cfg : ClippingZoneConfig) (car : CarState) (trackWidth trackHeight : ℚ) :
    ClippingZoneDetector.checkClippingZone jcos jsin none cfg car
        trackWidth trackHeight = 1 ∧
    (∀ img : TrackImage,
      (ClippingZoneDetector.carCheckPoints jcos jsin img car
          trackWidth trackHeight).length = 7 ∧
      ClippingZoneDetector.checkClippingZone jcos jsin (some img) cfg car
          trackWidth trackHeight =
        (if 0 < ClippingZoneDetector.inBoundsCount img
              (ClippingZoneDetector.carCheckPoints jcos jsin img car
                trackWidth trackHeight) ∧
            3 * ClippingZoneDetector.inBoundsCount img
              (ClippingZoneDetector.carCheckPoints jcos jsin img car
                trackWidth trackHeight) ≤
            10 * ClippingZoneDetector.clippingHitCount cfg img
              (ClippingZoneDetector.carCheckPoints jcos jsin img car
                trackWidth trackHeight)
         then cfg.pointMultiplier else 1)) ∧
    defaultClippingConfig.pointMultiplier = 5/2 ∧
    defaultClippingConfig.colorTolerance = 50 ∧
    defaultClippingConfig.clippingColor = { r := 255, g := 255, b := 255 } := by
  refine ⟨rfl, ?_, by norm_num [defaultClippingConfig], rfl, rfl⟩
  intro img
  constructor
  · simp [ClippingZoneDetector.carCheckPoints, ClippingZoneDetector.getCarCheckPoints]
  · simp only [ClippingZoneDetector.checkClippingZone]
    rw [ClippingZoneDetector.foldl_countStep]
    set pts := ClippingZoneDetector.carCheckPoints jcos jsin img car
      trackWidth trackHeight with hpts
    set hits := ClippingZoneDetector.clippingHitCount cfg img pts with hhits
    set checks := ClippingZoneDetector.inBoundsCount img pts with hchecks
    have key : (0 < 0 + checks ∧ ((0 + hits : ℕ) : ℚ) / ((0 + checks : ℕ) : ℚ) ≥ 3/10)
        ↔ (0 < checks ∧ 3 * checks ≤ 10 * hits) := by
      simp only [Nat.zero_add]
      constructor
      · rintro ⟨hc, hq⟩
        refine ⟨hc, ?_⟩
        have hc0 : (0:ℚ) < (checks : ℚ) := by exact_mod_cast hc
        rw [ge_iff_le, div_le_div_iff₀ (by norm_num) hc0] at hq
        exact_mod_cast (by linarith : (3:ℚ) * checks ≤ 10 * hits)
      · rintro ⟨hc, hq⟩
        refine ⟨hc, ?_⟩
        have hc0 : (0:ℚ) < (checks : ℚ) := by exact_mod_cast hc
        have hq' : (3:ℚ) * checks ≤ 10 * hits := by exact_mod_cast hq
        rw [ge_iff_le, div_le_div_iff₀ (by norm_num) hc0]
        linarith
    rw [if_congr key rfl rfl]

/-- Claim C10: `resetTotal` zeroes `totalScore`, `currentScore`, `combo` and
the drifting flag, while leaving `multiplier`, `duration`,
`isInClippingZone` and the private combo-decay timer unchanged. -/
theorem C10_resetTotal_frame (s : ScoringState) :
    (DriftScoring.resetTotal s).state.multiplier = s.state.multiplier ∧
    (DriftScoring.resetTotal s).state.duration = s.state.duration ∧
    (DriftScoring.resetTotal s).state.isInClippingZone = s.state.isInClippingZone ∧
    (DriftScoring.resetTotal s).comboTimer = s.comboTimer ∧
    (DriftScoring.resetTotal s).state.totalScore = 0 ∧
    (DriftScoring.resetTotal s).state.currentScore = 0 ∧
    (DriftScoring.resetTotal s).state.combo = 0 ∧
    (DriftScoring.resetTotal s).state.isDrifting = false :=
  ⟨rfl, rfl, rfl, rfl, rfl, rfl, rfl, rfl⟩

end Sideways
